import Mathlib

/-!
Verification of the transcript ingestion / buffering / embedding pipeline of
the `sidekick` server (src/server.js).

The model is a shallow embedding of the server's per-session transcript
buffer logic:

* `SessionBuffer` mirrors the JS buffer objects stored in the
  `buffers : Map<sessionId, {language, startedAt, lastAt, lines}>` map
  (src/server.js lines 283-291).  Timestamps (ISO-8601 strings in JS,
  compared only for recency) are modelled as `Nat` milliseconds;
  `startedAt` is an `Option Nat` because the JS code tests `!buf.startedAt`,
  i.e. whether the field is absent / the empty string (`none` models the
  JS-falsy case, which no code path ever produces).
* `ServerState` bundles the buffer map (association list, mirroring the JS
  `Map` with `mapSet` as `Map.set`), the `sessions` table rows touched by
  `updateSessionTranscriptCount` (src/db.js), and the rows inserted into
  `vec_transcripts` by `insertEmbedding` (modelled as the list `chunks`).
* The fallible OpenAI embedding call `openai.embeddings.create({input})`
  is modelled by an oracle `String → Nat → Option (List Int)`: given the
  input text and the index of the attempt within one drain, it returns
  `some vector` for a successful call and `none` for a thrown error.
  Embedding vectors are opaque payloads, modelled as `List Int`.
* A `Chunk` records, besides the fields passed to `insertEmbedding`, the
  list `lines` of buffered fragments whose join produced its `content`;
  this ghost field lets the no-loss accounting speak about fragments.
* `DrainResult.attempts` counts the embedding calls a drain performed and
  `DrainResult.waits` records the backoff delays (ms) it slept, so that
  retry behaviour is observable in theorems.
-/

namespace Sidekick

/-- Whitespace characters recognised by the model's JS-style `trim`. -/
def isWsChar (c : Char) : Bool := c = ' ' ∨ c = '\t' ∨ c = '\n' ∨ c = '\r'

/-- JS `String.prototype.trim()`: strip leading and trailing whitespace.
Defined over the character list so it evaluates by kernel reduction. -/
def jsTrim (s : String) : String :=
  ⟨((s.data.dropWhile isWsChar).reverse.dropWhile isWsChar).reverse⟩

/-- In-memory per-session buffer, src/server.js lines 283-291. -/
structure SessionBuffer where
  language : String
  startedAt : Option Nat
  lastAt : Nat
  lines : List String
deriving Repr, DecidableEq

/-- A row of the `sessions` table (the fields used by the pipeline:
`updateSessionTranscriptCount` bumps `total_transcripts` and `updated_at`). -/
structure Session where
  name : String
  createdAt : Nat
  updatedAt : Nat
  totalTranscripts : Nat
deriving Repr, DecidableEq

/-- A row of `vec_transcripts` as built by the `insertEmbedding({...})` calls
(src/server.js lines 343-350, 391-398, 541-548).  `lines` is the model-level
record of the buffered fragments that were joined into `content`. -/
structure Chunk where
  sessionId : String
  startedAt : Option Nat
  endedAt : Nat
  language : String
  content : String
  lines : List String
  embedding : List Int
deriving Repr, DecidableEq

/-- The server state the pipeline touches: the sessions table, the in-memory
`buffers` map and the persisted `vec_transcripts` rows. -/
structure ServerState where
  sessions : List (String × Session)
  buffers : List (String × SessionBuffer)
  chunks : List Chunk
deriving Repr, DecidableEq

/-- JS `Map.set`: replace the value at an existing key in place, otherwise
append a new entry. -/
def mapSet {α : Type} (k : String) (v : α) : List (String × α) → List (String × α)
  | [] => [(k, v)]
  | (k', v') :: rest => if k' = k then (k, v) :: rest else (k', v') :: mapSet k v rest

/-- Errors of the `POST /ingest` handler: HTTP 400 (missing sessionId or
empty text) and HTTP 404 (session not found). -/
inductive IngestError where
  | validation
  | notFound
deriving Repr, DecidableEq

/-- Body of a `POST /ingest` request; `none` models an absent JSON field. -/
structure IngestRequest where
  sessionId : Option String
  language : Option String
  text : Option String
deriving Repr, DecidableEq

/-- JS falsiness of an optional string: `undefined` and `""` are falsy. -/
def jsStrFalsy : Option String → Bool
  | none => true
  | some s => s = ""

/-- The `POST /ingest` handler, src/server.js lines 294-314.
`const { sessionId, language = "en", text } = req.body` defaults `language`
to `"en"` only when the field is absent; `if (!sessionId || !text ||
!text.trim())` rejects with 400; a missing session row rejects with 404;
otherwise the buffer is fetched or freshly created, `language` is updated by
`language || buf.language`, `lastAt` is set to now, the trimmed text is
pushed, the (always dead) `if (!buf.startedAt)` guard runs, and the buffer is
stored back with `buffers.set`. -/
def ingest (now : Nat) (req : IngestRequest) (st : ServerState) :
    Except IngestError Unit × ServerState :=
  let language := req.language.getD "en"
  if jsStrFalsy req.sessionId ∨ jsStrFalsy req.text ∨
      jsStrFalsy (req.text.map jsTrim) then
    (.error .validation, st)
  else
    let sessionId := req.sessionId.getD ""
    let text := req.text.getD ""
    match st.sessions.lookup sessionId with
    | none => (.error .notFound, st)
    | some _ =>
      let buf := (st.buffers.lookup sessionId).getD
        { language := language, startedAt := some now, lastAt := now, lines := [] }
      let buf := { buf with language := if language = "" then buf.language else language }
      let buf := { buf with lastAt := now }
      let buf := { buf with lines := buf.lines ++ [jsTrim text] }
      let buf := if buf.startedAt = none then { buf with startedAt := some now } else buf
      (.ok (), { st with buffers := mapSet sessionId buf st.buffers })

instance : DecidableEq (Except IngestError Unit) := fun a b =>
  match a, b with
  | .ok (), .ok () => isTrue rfl
  | .error e, .error e' =>
    match decEq e e' with
    | isTrue h => isTrue (by rw [h])
    | isFalse h => isFalse (by simp [h])
  | .ok _, .error _ => isFalse (by simp)
  | .error _, .ok _ => isFalse (by simp)

/-- Outcome model for `openai.embeddings.create({model, input})` within one
drain: `oracle input n` is the result of the (n+1)-th call made with that
input (`some vector` on success, `none` when the call throws). -/
def Oracle : Type := String → Nat → Option (List Int)

/-- Result of running one drain on one buffer-map entry: the buffer left in
the map, the chunk persisted by `insertEmbedding` (if any), the number of
embedding calls made, and the backoff delays (ms) slept between attempts. -/
structure DrainResult where
  buf : SessionBuffer
  chunk : Option Chunk
  attempts : Nat
  waits : List Nat
deriving Repr, DecidableEq

/-- `SILENCE_THRESHOLD`, src/server.js line 319. -/
def SILENCE_THRESHOLD : Nat := 15 * 1000

/-- Body of the silence-detection sweep for one `(sessionId, buf)` entry,
src/server.js lines 321-362: skip an empty buffer; skip a buffer active more
recently than the threshold; otherwise splice out all lines, join and trim,
skip if the content is empty, and make a single embedding call inside one
try/catch — on success persist the chunk and reset `startedAt`, on failure
`buf.lines.unshift(...lines)`.  `resetAt` is the `new Date()` taken after a
successful embed. -/
def silenceFlushEntry (oracle : Oracle) (resetAt now : Nat)
    (sessionId : String) (buf : SessionBuffer) : DrainResult :=
  if buf.lines = [] then ⟨buf, none, 0, []⟩
  else
    let lastActivityTime := buf.lastAt
    let silenceDuration := now - lastActivityTime
    if SILENCE_THRESHOLD ≤ silenceDuration then
      let lines := buf.lines
      let buf := { buf with lines := [] }
      let content := jsTrim (String.intercalate " " lines)
      if content = "" then ⟨buf, none, 0, []⟩
      else
        match oracle content 0 with
        | some vector =>
          ⟨{ buf with startedAt := some resetAt },
            some { sessionId := sessionId, startedAt := buf.startedAt,
                   endedAt := buf.lastAt, language := buf.language,
                   content := content, lines := lines, embedding := vector },
            1, []⟩
        | none => ⟨{ buf with lines := lines ++ buf.lines }, none, 1, []⟩
    else ⟨buf, none, 0, []⟩

/-- The `while (!embedded && retryCount < maxRetries)` retry loop of the
interval flush, src/server.js lines 379-422.  `fuel` is the loop variant
`maxRetries - retryCount` (the loop body always either returns or increments
`retryCount`).  On success: persist the chunk and reset `startedAt`.  On a
failed attempt: increment `retryCount`; if it reached `maxRetries`, push the
taken lines back onto the front of the buffer; otherwise sleep
`Math.pow(2, retryCount) * 1000` ms and loop. -/
def intervalRetryLoop (oracle : Oracle) (resetAt : Nat) (sessionId : String)
    (content : String) (lines : List String) (buf : SessionBuffer)
    (maxRetries retryCount attempts : Nat) (waits : List Nat) :
    Nat → DrainResult
  | 0 => ⟨buf, none, attempts, waits⟩
  | fuel + 1 =>
    match oracle content retryCount with
    | some vector =>
      ⟨{ buf with startedAt := some resetAt },
        some { sessionId := sessionId, startedAt := buf.startedAt,
               endedAt := buf.lastAt, language := buf.language,
               content := content, lines := lines, embedding := vector },
        attempts + 1, waits⟩
    | none =>
      let retryCount := retryCount + 1
      if maxRetries ≤ retryCount then
        ⟨{ buf with lines := lines ++ buf.lines }, none, attempts + 1, waits⟩
      else
        intervalRetryLoop oracle resetAt sessionId content lines buf maxRetries
          retryCount (attempts + 1) (waits ++ [2 ^ retryCount * 1000]) fuel

/-- Body of the periodic interval flush for one `(sessionId, buf)` entry,
src/server.js lines 370-423: skip an empty buffer; splice out all lines, join
and trim, skip if the content is empty; then run the retry loop with
`retryCount = 0` and `maxRetries = 3`. -/
def intervalFlushEntry (oracle : Oracle) (resetAt : Nat)
    (sessionId : String) (buf : SessionBuffer) : DrainResult :=
  if buf.lines = [] then ⟨buf, none, 0, []⟩
  else
    let lines := buf.lines
    let buf := { buf with lines := [] }
    let content := jsTrim (String.intercalate " " lines)
    if content = "" then ⟨buf, none, 0, []⟩
    else intervalRetryLoop oracle resetAt sessionId content lines buf 3 0 0 [] 3

/-- `updateSessionTranscriptCount` (src/db.js, quoted in src/README.md):
`update sessions set total_transcripts = total_transcripts + 1,
updated_at = ? where id = ?`. -/
def updateSessionTranscriptCount (now : Nat) (sessionId : String)
    (sessions : List (String × Session)) : List (String × Session) :=
  sessions.map fun kv =>
    if kv.1 = sessionId then
      (kv.1, { kv.2 with totalTranscripts := kv.2.totalTranscripts + 1,
                         updatedAt := now })
    else kv

/-- Responses of `POST /api/sessions/:id/flush` (src/server.js lines
499-577): 404, the two `flushed: false` replies, the `flushed: true` reply
carrying `contentLength`, and the 500 reply for a failed embedding call. -/
inductive FlushResponse where
  | notFound
  | noPending
  | emptyBuffer
  | flushed (contentLength : Nat)
  | embedFailed
deriving Repr, DecidableEq

/-- The manual flush handler `POST /api/sessions/:id/flush`, src/server.js
lines 499-577.  Missing session: 404.  Missing buffer or no lines:
`flushed: false` with nothing touched.  Otherwise splice out all lines, join
and trim; empty content answers `flushed: false` (the splice already emptied
the stored buffer).  A single embedding call follows: on success persist the
chunk, bump the session's transcript count, reset `startedAt` and answer
`flushed: true` with the content length; on failure unshift the lines back
and answer 500.  `resetAt` models the `new Date()` timestamps taken while
answering. -/
def flushNow (oracle : Oracle) (resetAt : Nat) (sessionId : String)
    (st : ServerState) : FlushResponse × ServerState :=
  match st.sessions.lookup sessionId with
  | none => (.notFound, st)
  | some _ =>
    match st.buffers.lookup sessionId with
    | none => (.noPending, st)
    | some buf =>
      if buf.lines = [] then (.noPending, st)
      else
        let lines := buf.lines
        let buf := { buf with lines := [] }
        let content := jsTrim (String.intercalate " " lines)
        if content = "" then
          (.emptyBuffer, { st with buffers := mapSet sessionId buf st.buffers })
        else
          match oracle content 0 with
          | some vector =>
            let chunk : Chunk :=
              { sessionId := sessionId, startedAt := buf.startedAt,
                endedAt := buf.lastAt, language := buf.language,
                content := content, lines := lines, embedding := vector }
            (.flushed content.length,
              { st with
                  chunks := st.chunks ++ [chunk],
                  sessions := updateSessionTranscriptCount resetAt sessionId st.sessions,
                  buffers := mapSet sessionId
                    ({ buf with startedAt := some resetAt }) st.buffers })
          | none =>
            (.embedFailed,
              { st with buffers := mapSet sessionId
                          ({ buf with lines := lines ++ buf.lines }) st.buffers })

/-- The hourly buffer-cleanup sweep, src/server.js lines 427-442: delete
every entry with `buf.lastAt < oneHourAgo && buf.lines.length === 0`
(ISO-string comparison on equal-length timestamps coincides with numeric
order, so `<` on `Nat` milliseconds is faithful). -/
def cleanupBuffers (now : Nat) (st : ServerState) : ServerState :=
  let oneHourAgo := now - 60 * 60 * 1000
  { st with buffers :=
      st.buffers.filter fun kv => ¬(kv.2.lastAt < oneHourAgo ∧ kv.2.lines = []) }

/-!
Event machine for the no-loss accounting of one session's buffer.

Every mutation of `buf.lines` and every `insertEmbedding` in src/server.js is
one of four primitive operations, and the three drains interleave them with
ingest in arbitrary ways (several drains can hold taken lines at once, since
each `await` yields):

* `ingest text` — `buf.lines.push(text.trim())` after the handler's
  validation (line 310); the no-op case models a request rejected with 400.
* `take` — `buf.lines.splice(0, buf.lines.length)` (lines 332, 374, 520):
  the drain takes all current lines and the buffer becomes empty.
* `commit taken` — `insertEmbedding({content, ...})` for a drain holding
  `taken` (lines 343, 391, 541): the fragments become a persisted chunk.
* `restore taken` — `buf.lines.unshift(...lines)` for a failed drain
  holding `taken` (lines 360, 416, 567): the taken lines return to the
  front of the buffer, ahead of anything appended meanwhile.
-/

/-- Events of the per-session buffer machine. -/
inductive BufferEvent where
  | ingest (text : String)
  | take
  | commit (taken : List String)
  | restore (taken : List String)
deriving Repr, DecidableEq

/-- State of the per-session buffer machine: the live `buf.lines`, the
line-lists currently held by in-flight drains, and the fragment lists of the
chunks persisted so far. -/
structure PipelineState where
  buffer : List String
  pending : List (List String)
  chunks : List (List String)
deriving Repr, DecidableEq

/-- One step of the per-session buffer machine (see the section comment for
the source line of each case).  `commit`/`restore` of a line-list no drain
holds is a no-op. -/
def pipelineStep (st : PipelineState) : BufferEvent → PipelineState
  | .ingest text =>
    if jsTrim text = "" then st
    else { st with buffer := st.buffer ++ [jsTrim text] }
  | .take => { st with buffer := [], pending := st.pending ++ [st.buffer] }
  | .commit taken =>
    if taken ∈ st.pending then
      { st with chunks := st.chunks ++ [taken], pending := st.pending.erase taken }
    else st
  | .restore taken =>
    if taken ∈ st.pending then
      { st with buffer := taken ++ st.buffer, pending := st.pending.erase taken }
    else st

/-- Run the machine from the empty initial state. -/
def pipelineRun (evs : List BufferEvent) : PipelineState :=
  evs.foldl pipelineStep ⟨[], [], []⟩

/-- The multiset of trimmed fragments accepted by the ingest events of a
trace. -/
def ingestedFragments : List BufferEvent → Multiset String
  | [] => 0
  | .ingest text :: evs =>
    (if jsTrim text = "" then 0 else {jsTrim text}) + ingestedFragments evs
  | _ :: evs => ingestedFragments evs

/-- Where the fragments of a state live: the live buffer, the lines held by
in-flight drains, and the persisted chunks. -/
def fragmentAccount (st : PipelineState) : Multiset String :=
  (st.buffer : Multiset String) + (st.pending.flatten : Multiset String) +
    (st.chunks.flatten : Multiset String)

/-- Fragments accepted by a single event. -/
def ingestedOne : BufferEvent → Multiset String
  | .ingest text => if jsTrim text = "" then 0 else {jsTrim text}
  | _ => 0

/-!
Sanity checks evaluating the model on concrete inputs.
-/

example :
    (ingest 7 ⟨some "S", none, some " hi "⟩
      ⟨[("S", ⟨"n", 0, 0, 0⟩)], [], []⟩).2.buffers =
    [("S", ⟨"en", some 7, 7, ["hi"]⟩)] := by decide

example :
    (ingest 7 ⟨some "S", none, some "  "⟩
      ⟨[("S", ⟨"n", 0, 0, 0⟩)], [], []⟩).1 = .error .validation := by decide

example :
    intervalFlushEntry (fun _ _ => none) 99 "S" ⟨"en", some 1, 2, ["a", "b"]⟩ =
    ⟨⟨"en", some 1, 2, ["a", "b"]⟩, none, 3, [2000, 4000]⟩ := by decide

example :
    (intervalFlushEntry (fun _ n => if n = 2 then some [5] else none) 99 "S"
      ⟨"en", some 1, 2, ["a", "b"]⟩).chunk =
    some ⟨"S", some 1, 2, "en", "a b", ["a", "b"], [5]⟩ := by decide

example :
    silenceFlushEntry (fun _ n => if n = 0 then none else some [5]) 99 20000 "S"
      ⟨"en", some 1, 2, ["a"]⟩ = ⟨⟨"en", some 1, 2, ["a"]⟩, none, 1, []⟩ := by decide

example :
    pipelineRun [.ingest " a ", .take, .ingest "b", .restore ["a"]] =
    ⟨["a", "b"], [], []⟩ := by decide

example :
    pipelineRun [.ingest "a", .take, .ingest "b", .commit ["a"], .take] =
    ⟨[], [["b"]], [["a"]]⟩ := by decide

example :
    ingest 5 ⟨some "S", some "da", some "x"⟩
        ⟨[("S", ⟨"n", 0, 0, 0⟩)], [("S", ⟨"en", some 1, 2, ["a"]⟩)], []⟩ =
      (.ok (), ⟨[("S", ⟨"n", 0, 0, 0⟩)], [("S", ⟨"da", some 1, 5, ["a", "x"]⟩)], []⟩) := by
  decide

lemma flatten_erase_account {taken : List String} {pending : List (List String)}
    (h : taken ∈ pending) :
    (pending.flatten : Multiset String) =
      (taken : Multiset String) + ((pending.erase taken).flatten : Multiset String) := by
  induction pending with
  | nil => cases h
  | cons p ps ih =>
    by_cases hp : p = taken
    · subst hp
      rw [List.erase_cons_head, List.flatten_cons, ← Multiset.coe_add]
    · rw [List.erase_cons_tail (by simp [hp]), List.flatten_cons, List.flatten_cons,
        ← Multiset.coe_add, ← Multiset.coe_add,
        ih (by rcases List.mem_cons.mp h with h' | h'; exact absurd h'.symm hp; exact h')]
      abel

lemma ingestedFragments_cons (e : BufferEvent) (evs : List BufferEvent) :
    ingestedFragments (e :: evs) = ingestedOne e + ingestedFragments evs := by
  cases e <;> simp [ingestedFragments, ingestedOne]

lemma fragmentAccount_step (st : PipelineState) (e : BufferEvent) :
    fragmentAccount (pipelineStep st e) = fragmentAccount st + ingestedOne e := by
  cases e with
  | ingest t =>
    by_cases h : jsTrim t = ""
    · simp [pipelineStep, fragmentAccount, ingestedOne, h]
    · simp only [pipelineStep, fragmentAccount, ingestedOne, h, if_neg, ite_false,
        ← Multiset.coe_add, Multiset.coe_singleton, add_zero, ne_eq, not_false_eq_true]
      abel
  | take =>
    simp only [pipelineStep, fragmentAccount, ingestedOne, List.flatten_append,
      List.flatten_cons, List.flatten_nil, List.append_nil, List.nil_append,
      ← Multiset.coe_add, Multiset.coe_nil, add_zero, zero_add]
    abel
  | commit taken =>
    by_cases h : taken ∈ st.pending
    · simp only [pipelineStep, if_pos h, fragmentAccount, ingestedOne,
        flatten_erase_account h, List.flatten_append, List.flatten_cons,
        List.flatten_nil, List.append_nil, ← Multiset.coe_add, add_zero]
      abel
    · simp [pipelineStep, if_neg h, fragmentAccount, ingestedOne]
  | restore taken =>
    by_cases h : taken ∈ st.pending
    · simp only [pipelineStep, if_pos h, fragmentAccount, ingestedOne,
        flatten_erase_account h, ← Multiset.coe_add, add_zero]
      abel
    · simp [pipelineStep, if_neg h, fragmentAccount, ingestedOne]

lemma fragmentAccount_foldl (evs : List BufferEvent) (st : PipelineState) :
    fragmentAccount (evs.foldl pipelineStep st) =
      fragmentAccount st + ingestedFragments evs := by
  induction evs generalizing st with
  | nil => simp [ingestedFragments]
  | cons e evs ih =>
    rw [List.foldl_cons, ih, fragmentAccount_step, ingestedFragments_cons]
    abel

lemma foldl_ingest_events (ts : List String) (st : PipelineState)
    (h : ∀ t ∈ ts, jsTrim t ≠ "") :
    (ts.map BufferEvent.ingest).foldl pipelineStep st =
      { st with buffer := st.buffer ++ ts.map jsTrim } := by
  induction ts generalizing st with
  | nil => simp
  | cons t ts ih =>
    rw [List.map_cons, List.foldl_cons]
    rw [show pipelineStep st (.ingest t) = { st with buffer := st.buffer ++ [jsTrim t] } by
      simp [pipelineStep, h t (by simp)]]
    rw [ih _ (fun u hu => h u (by simp [hu]))]
    simp

/-- C1: for every sequence of ingest calls interleaved with any number of
drain attempts (successful, failed, or still in flight), the multiset of
ingested trimmed fragments equals the fragments in persisted chunks plus the
fragments held by in-flight drains plus the fragments still in the live
buffer; and a drain that ultimately fails prepends its taken lines back onto
the front of the buffer in their original order, ahead of all lines appended
during the retry window. -/
theorem ingest_drain_no_loss :
    (∀ evs : List BufferEvent,
        ingestedFragments evs = fragmentAccount (pipelineRun evs)) ∧
    (∀ (evs : List BufferEvent) (ts : List String), (∀ t ∈ ts, jsTrim t ≠ "") →
        (pipelineRun (evs ++ .take :: (ts.map .ingest ++
            [.restore (pipelineRun evs).buffer]))).buffer =
          (pipelineRun evs).buffer ++ ts.map jsTrim) := by
  constructor
  · intro evs
    rw [pipelineRun, fragmentAccount_foldl]
    simp [fragmentAccount]
  · intro evs ts h
    simp only [pipelineRun]
    rw [List.foldl_append]
    set st := List.foldl pipelineStep ⟨[], [], []⟩ evs with hst
    rw [List.foldl_cons]
    rw [show pipelineStep st .take = ⟨[], st.pending ++ [st.buffer], st.chunks⟩ from rfl]
    rw [List.foldl_append, foldl_ingest_events ts _ h]
    have hmem : st.buffer ∈ st.pending ++ [st.buffer] := by simp
    simp only [List.foldl_cons, List.foldl_nil]
    rw [show pipelineStep ⟨[] ++ ts.map jsTrim, st.pending ++ [st.buffer], st.chunks⟩
          (.restore st.buffer) =
        ⟨st.buffer ++ ([] ++ ts.map jsTrim),
          (st.pending ++ [st.buffer]).erase st.buffer, st.chunks⟩ by
      simp [pipelineStep, hmem]]
    simp

/-- Witness for C1 at a concrete trace: ingest "a", a drain takes it, ingest
" b " arrives during the retry window, the drain fails and restores. -/
theorem ingest_drain_no_loss_witness :
    ingestedFragments [.ingest "a", .take, .ingest " b ", .restore ["a"]] =
      fragmentAccount (pipelineRun [.ingest "a", .take, .ingest " b ", .restore ["a"]]) ∧
    (pipelineRun ([.ingest "a"] ++ .take :: ([" b "].map .ingest ++
        [.restore (pipelineRun [.ingest "a"]).buffer]))).buffer =
      (pipelineRun [.ingest "a"]).buffer ++ [" b "].map jsTrim :=
  ⟨ingest_drain_no_loss.1 _, ingest_drain_no_loss.2 [.ingest "a"] [" b "] (by decide)⟩

lemma lookup_mapSet_self {α : Type} (k : String) (v : α) (l : List (String × α)) :
    (mapSet k v l).lookup k = some v := by
  induction l with
  | nil => simp [mapSet, List.lookup]
  | cons kv rest ih =>
    obtain ⟨k', v'⟩ := kv
    by_cases h : k' = k
    · simp [mapSet, h, List.lookup]
    · have hb : (k == k') = false := beq_eq_false_iff_ne.mpr (Ne.symm h)
      simp [mapSet, h, List.lookup, hb, ih]

lemma lookup_mapSet_ne {α : Type} {k k' : String} (hne : k' ≠ k) (v : α)
    (l : List (String × α)) : (mapSet k v l).lookup k' = l.lookup k' := by
  have hb : (k' == k) = false := beq_eq_false_iff_ne.mpr hne
  induction l with
  | nil => simp [mapSet, List.lookup, hb]
  | cons kv rest ih =>
    obtain ⟨k'', v''⟩ := kv
    by_cases h : k'' = k
    · subst h
      simp [mapSet, List.lookup, hb]
    · simp only [mapSet, if_neg h, List.lookup, ih]

lemma mapSet_self_of_lookup {α : Type} {k : String} {v : α} {l : List (String × α)}
    (h : l.lookup k = some v) : mapSet k v l = l := by
  induction l with
  | nil => simp [List.lookup] at h
  | cons kv rest ih =>
    obtain ⟨k', v'⟩ := kv
    by_cases hk : k' = k
    · subst hk
      simp [List.lookup] at h
      simp [mapSet, h]
    · have hb : (k == k') = false := beq_eq_false_iff_ne.mpr (Ne.symm hk)
      simp only [List.lookup, hb] at h
      simp [mapSet, hk, ih h]

/-- C2: interval-triggered drain on a non-empty buffer with retry: first two
embedding attempts fail and the third succeeds — the drain ends with exactly
one persisted chunk (the joined content, the full window, `startedAt` reset)
and an empty buffer; all three attempts fail — the drain ends with the
original content fully restored (not duplicated, not lost) and no chunk
persisted. -/
theorem interval_retry_then_restore (oracle : Oracle) (resetAt : Nat)
    (sessionId : String) (buf : SessionBuffer) (v : List Int)
    (hne : buf.lines ≠ [])
    (hc : jsTrim (String.intercalate " " buf.lines) ≠ "") :
    (oracle (jsTrim (String.intercalate " " buf.lines)) 0 = none →
     oracle (jsTrim (String.intercalate " " buf.lines)) 1 = none →
     oracle (jsTrim (String.intercalate " " buf.lines)) 2 = some v →
     intervalFlushEntry oracle resetAt sessionId buf =
       ⟨{ buf with lines := [], startedAt := some resetAt },
        some { sessionId := sessionId, startedAt := buf.startedAt,
               endedAt := buf.lastAt, language := buf.language,
               content := jsTrim (String.intercalate " " buf.lines),
               lines := buf.lines, embedding := v }, 3, [2000, 4000]⟩) ∧
    (oracle (jsTrim (String.intercalate " " buf.lines)) 0 = none →
     oracle (jsTrim (String.intercalate " " buf.lines)) 1 = none →
     oracle (jsTrim (String.intercalate " " buf.lines)) 2 = none →
     intervalFlushEntry oracle resetAt sessionId buf = ⟨buf, none, 3, [2000, 4000]⟩) := by
  constructor
  · intro h0 h1 h2
    rw [intervalFlushEntry, if_neg hne, if_neg hc]
    rw [show (3 : Nat) = 2 + 1 from rfl, intervalRetryLoop, h0]
    norm_num
    rw [show (2 : Nat) = 1 + 1 from rfl, intervalRetryLoop, h1]
    norm_num
    rw [show (1 : Nat) = 0 + 1 from rfl, intervalRetryLoop, h2]
  · intro h0 h1 h2
    rw [intervalFlushEntry, if_neg hne, if_neg hc]
    rw [show (3 : Nat) = 2 + 1 from rfl, intervalRetryLoop, h0]
    norm_num
    rw [show (2 : Nat) = 1 + 1 from rfl, intervalRetryLoop, h1]
    norm_num
    rw [show (1 : Nat) = 0 + 1 from rfl, intervalRetryLoop, h2]
    norm_num

/-- Witness for C2 at a concrete buffer and oracles. -/
theorem interval_retry_then_restore_witness :
    (intervalFlushEntry (fun _ n => if n = 2 then some [7] else none) 99 "S"
        ⟨"en", some 1, 2, ["a", "b"]⟩ =
      ⟨⟨"en", some 99, 2, []⟩, some ⟨"S", some 1, 2, "en", "a b", ["a", "b"], [7]⟩,
        3, [2000, 4000]⟩) ∧
    (intervalFlushEntry (fun _ _ => none) 99 "S" ⟨"en", some 1, 2, ["a", "b"]⟩ =
      ⟨⟨"en", some 1, 2, ["a", "b"]⟩, none, 3, [2000, 4000]⟩) :=
  ⟨((interval_retry_then_restore (fun _ n => if n = 2 then some [7] else none) 99 "S"
      ⟨"en", some 1, 2, ["a", "b"]⟩ [7] (by decide) (by decide)).1
      (by decide) (by decide) (by decide)),
   ((interval_retry_then_restore (fun _ _ => none) 99 "S"
      ⟨"en", some 1, 2, ["a", "b"]⟩ [7] (by decide) (by decide)).2
      rfl rfl rfl)⟩

/-- C3 counterexample: the claim says every timer-triggered drain retries a
failed embedding call (up to 3 attempts, backoff) and pushes content back
only after exhausting all attempts.  With an oracle whose first call fails
and whose later calls succeed, the silence-triggered drain restores the
buffer after a single attempt and persists nothing — even though a second
attempt would have succeeded (as the interval drain on the same input
shows). -/
theorem silence_drain_no_retry_counterexample :
    silenceFlushEntry (fun _ n => if n = 0 then none else some [1]) 99 20000 "S"
        ⟨"en", some 1, 2, ["hello"]⟩ =
      ⟨⟨"en", some 1, 2, ["hello"]⟩, none, 1, []⟩ ∧
    intervalFlushEntry (fun _ n => if n = 0 then none else some [1]) 99 "S"
        ⟨"en", some 1, 2, ["hello"]⟩ =
      ⟨⟨"en", some 99, 2, []⟩, some ⟨"S", some 1, 2, "en", "hello", ["hello"], [1]⟩,
        2, [2000]⟩ := by decide

/-- C3 amended: only the interval-triggered drain retries failed embedding
calls, with exponential backoff (2 s then 4 s) up to 3 attempts, restoring
the taken lines only after all 3 fail and never after a success; the
silence-triggered drain makes exactly one attempt and restores the taken
lines immediately on its failure. -/
theorem timer_drain_retry_policy (oracle : Oracle) (resetAt now : Nat)
    (sessionId : String) (buf : SessionBuffer) (v : List Int)
    (hne : buf.lines ≠ [])
    (hc : jsTrim (String.intercalate " " buf.lines) ≠ "") :
    (oracle (jsTrim (String.intercalate " " buf.lines)) 0 = none →
     oracle (jsTrim (String.intercalate " " buf.lines)) 1 = none →
     oracle (jsTrim (String.intercalate " " buf.lines)) 2 = none →
     intervalFlushEntry oracle resetAt sessionId buf = ⟨buf, none, 3, [2000, 4000]⟩) ∧
    (oracle (jsTrim (String.intercalate " " buf.lines)) 0 = none →
     oracle (jsTrim (String.intercalate " " buf.lines)) 1 = some v →
     intervalFlushEntry oracle resetAt sessionId buf =
       ⟨{ buf with lines := [], startedAt := some resetAt },
        some { sessionId := sessionId, startedAt := buf.startedAt,
               endedAt := buf.lastAt, language := buf.language,
               content := jsTrim (String.intercalate " " buf.lines),
               lines := buf.lines, embedding := v }, 2, [2000]⟩) ∧
    (SILENCE_THRESHOLD ≤ now - buf.lastAt →
     oracle (jsTrim (String.intercalate " " buf.lines)) 0 = none →
     silenceFlushEntry oracle resetAt now sessionId buf = ⟨buf, none, 1, []⟩) := by
  refine ⟨fun h0 h1 h2 => ?_, fun h0 h1 => ?_, fun hth h0 => ?_⟩
  · rw [intervalFlushEntry, if_neg hne, if_neg hc]
    rw [show (3 : Nat) = 2 + 1 from rfl, intervalRetryLoop, h0]
    norm_num
    rw [show (2 : Nat) = 1 + 1 from rfl, intervalRetryLoop, h1]
    norm_num
    rw [show (1 : Nat) = 0 + 1 from rfl, intervalRetryLoop, h2]
    norm_num
  · rw [intervalFlushEntry, if_neg hne, if_neg hc]
    rw [show (3 : Nat) = 2 + 1 from rfl, intervalRetryLoop, h0]
    norm_num
    rw [show (2 : Nat) = 1 + 1 from rfl, intervalRetryLoop, h1]
  · rw [silenceFlushEntry, if_neg hne, if_pos hth, if_neg hc, h0]
    simp

/-- Witness for the amended C3 at a concrete buffer and oracles. -/
theorem timer_drain_retry_policy_witness :
    (intervalFlushEntry (fun _ _ => none) 77 "S" ⟨"da", some 3, 4, ["x", "y"]⟩ =
      ⟨⟨"da", some 3, 4, ["x", "y"]⟩, none, 3, [2000, 4000]⟩) ∧
    (intervalFlushEntry (fun _ n => if n = 0 then none else some [2]) 77 "S"
        ⟨"da", some 3, 4, ["x", "y"]⟩ =
      ⟨⟨"da", some 77, 4, []⟩, some ⟨"S", some 3, 4, "da", "x y", ["x", "y"], [2]⟩,
        2, [2000]⟩) ∧
    (silenceFlushEntry (fun _ _ => none) 77 20000 "S" ⟨"da", some 3, 4, ["x", "y"]⟩ =
      ⟨⟨"da", some 3, 4, ["x", "y"]⟩, none, 1, []⟩) :=
  ⟨(timer_drain_retry_policy (fun _ _ => none) 77 20000 "S"
      ⟨"da", some 3, 4, ["x", "y"]⟩ [2] (by decide) (by decide)).1 rfl rfl rfl,
   (timer_drain_retry_policy (fun _ n => if n = 0 then none else some [2]) 77 20000 "S"
      ⟨"da", some 3, 4, ["x", "y"]⟩ [2] (by decide) (by decide)).2.1 (by decide) (by decide),
   (timer_drain_retry_policy (fun _ _ => none) 77 20000 "S"
      ⟨"da", some 3, 4, ["x", "y"]⟩ [2] (by decide) (by decide)).2.2 (by decide) rfl⟩

lemma ingest_ok_of_new (now : Nat) (sid : String) (lang : Option String)
    (text : String) (st : ServerState) (hsid : sid ≠ "") (htext : jsTrim text ≠ "")
    (s : Session) (hs : st.sessions.lookup sid = some s)
    (hb : st.buffers.lookup sid = none) :
    ingest now ⟨some sid, lang, some text⟩ st =
      (.ok (), { st with
                 buffers := mapSet sid ⟨lang.getD "en", some now, now, [jsTrim text]⟩
                              st.buffers }) := by
  have h1 : jsStrFalsy (some sid) = false := by simp [jsStrFalsy, hsid]
  have h2 : jsStrFalsy (some (jsTrim text)) = false := by simp [jsStrFalsy, htext]
  have h3 : jsStrFalsy (some text) = false := by
    simp only [jsStrFalsy, decide_eq_false_iff_not]
    intro h
    exact htext (by simp [h]; rfl)
  simp only [ingest, Option.map_some, h1, h2, h3, Bool.false_eq_true, or_self,
    if_false, hs, hb, Option.getD_none, Option.getD_some]
  by_cases hl : lang.getD "en" = "" <;> simp [hl, h1, h2, h3]

lemma ingest_ok_of_existing (now : Nat) (sid : String) (lang : Option String)
    (text : String) (st : ServerState) (buf : SessionBuffer)
    (hsid : sid ≠ "") (htext : jsTrim text ≠ "")
    (s : Session) (hs : st.sessions.lookup sid = some s)
    (hb : st.buffers.lookup sid = some buf) :
    ingest now ⟨some sid, lang, some text⟩ st =
      (.ok (), { st with
                 buffers := mapSet sid
                              ⟨if lang.getD "en" = "" then buf.language else lang.getD "en",
                               if buf.startedAt = none then some now else buf.startedAt,
                               now, buf.lines ++ [jsTrim text]⟩ st.buffers }) := by
  have h1 : jsStrFalsy (some sid) = false := by simp [jsStrFalsy, hsid]
  have h2 : jsStrFalsy (some (jsTrim text)) = false := by simp [jsStrFalsy, htext]
  have h3 : jsStrFalsy (some text) = false := by
    simp only [jsStrFalsy, decide_eq_false_iff_not]
    intro h
    exact htext (by simp [h]; rfl)
  simp only [ingest, Option.map_some, h1, h2, h3, Bool.false_eq_true, or_self,
    if_false, hs, hb, Option.getD_some]
  by_cases hst : buf.startedAt = none <;> simp [hst, h1, h2, h3]

lemma mapSet_mapSet {α : Type} (k : String) (v v' : α) (l : List (String × α)) :
    mapSet k v' (mapSet k v l) = mapSet k v' l := by
  induction l with
  | nil => simp [mapSet]
  | cons kv rest ih =>
    obtain ⟨k'', v''⟩ := kv
    by_cases h : k'' = k
    · simp [mapSet, h]
    · simp [mapSet, h, ih]

/-- C4: manual flush contract.  On an existing session with an absent or
empty buffer, `flushNow` answers `flushed: false` and changes nothing.
Ingesting the 4-character text "test" into a fresh buffer and then flushing
with a succeeding embedding call answers `flushed: true` with
`contentLength = 4` and persists exactly one chunk with content "test",
leaving the buffer empty.  When the (single) embedding call fails — whatever
the oracle would answer on later attempts — the drain restores the taken
lines and reports the error, leaving the state unchanged. -/
theorem flushNow_contract (oracle : Oracle) (resetAt : Nat) (sessionId : String)
    (st : ServerState) :
    ((st.sessions.lookup sessionId).isSome →
     (st.buffers.lookup sessionId = none ∨
        ∃ buf, st.buffers.lookup sessionId = some buf ∧ buf.lines = []) →
     flushNow oracle resetAt sessionId st = (.noPending, st)) ∧
    (∀ now v s, sessionId ≠ "" →
     st.sessions.lookup sessionId = some s →
     st.buffers.lookup sessionId = none →
     oracle "test" 0 = some v →
     flushNow oracle resetAt sessionId
         (ingest now ⟨some sessionId, some "en", some "test"⟩ st).2 =
       (.flushed 4,
        { st with
            sessions := updateSessionTranscriptCount resetAt sessionId st.sessions,
            buffers := mapSet sessionId ⟨"en", some resetAt, now, []⟩ st.buffers,
            chunks := st.chunks ++
              [⟨sessionId, some now, now, "en", "test", ["test"], v⟩] })) ∧
    (∀ s buf, st.sessions.lookup sessionId = some s →
     st.buffers.lookup sessionId = some buf →
     buf.lines ≠ [] →
     jsTrim (String.intercalate " " buf.lines) ≠ "" →
     oracle (jsTrim (String.intercalate " " buf.lines)) 0 = none →
     flushNow oracle resetAt sessionId st = (.embedFailed, st)) := by
  refine ⟨?_, ?_, ?_⟩
  · intro hss hbuf
    obtain ⟨s, hs⟩ := Option.isSome_iff_exists.mp hss
    rcases hbuf with hb | ⟨buf, hb, hlines⟩
    · simp [flushNow, hs, hb]
    · simp [flushNow, hs, hb, hlines]
  · intro now v s hsid hs hb ho
    rw [ingest_ok_of_new now sessionId (some "en") "test" st hsid (by decide) s hs hb]
    have ht : jsTrim "test" = "test" := by decide
    have hcontent : jsTrim (String.intercalate " " ["test"]) = "test" := by decide
    simp only [flushNow, hs, lookup_mapSet_self, ht, hcontent, ho, mapSet_mapSet]
    rw [if_neg (show ¬(("test" : String) = "") from by decide),
      show ("test" : String).length = 4 from by decide]
    simp
  · intro s buf hs hb hlines hc ho
    simp only [flushNow, hs, hb, if_neg hlines, hc, if_neg, ite_false, ho,
      List.append_nil]
    simp [mapSet_self_of_lookup hb]

/-- Witness for C4 at a concrete state. -/
theorem flushNow_contract_witness :
    (flushNow (fun _ _ => some [9]) 50 "S" ⟨[("S", ⟨"n", 0, 0, 0⟩)], [], []⟩ =
      (.noPending, ⟨[("S", ⟨"n", 0, 0, 0⟩)], [], []⟩)) ∧
    (flushNow (fun _ _ => some [9]) 50 "S"
        (ingest 10 ⟨some "S", some "en", some "test"⟩
          ⟨[("S", ⟨"n", 0, 0, 0⟩)], [], []⟩).2 =
      (.flushed 4,
       ⟨updateSessionTranscriptCount 50 "S" [("S", ⟨"n", 0, 0, 0⟩)],
        mapSet "S" ⟨"en", some 50, 10, []⟩ [],
        [] ++ [⟨"S", some 10, 10, "en", "test", ["test"], [9]⟩]⟩)) ∧
    (flushNow (fun _ _ => none) 50 "S"
        ⟨[("S", ⟨"n", 0, 0, 0⟩)], [("S", ⟨"en", some 1, 2, ["a"]⟩)], []⟩ =
      (.embedFailed, ⟨[("S", ⟨"n", 0, 0, 0⟩)], [("S", ⟨"en", some 1, 2, ["a"]⟩)], []⟩)) :=
  ⟨(flushNow_contract (fun _ _ => some [9]) 50 "S" ⟨[("S", ⟨"n", 0, 0, 0⟩)], [], []⟩).1
      (by decide) (Or.inl (by decide)),
   (flushNow_contract (fun _ _ => some [9]) 50 "S" ⟨[("S", ⟨"n", 0, 0, 0⟩)], [], []⟩).2.1
      10 [9] ⟨"n", 0, 0, 0⟩ (by decide) (by decide) (by decide) rfl,
   (flushNow_contract (fun _ _ => none) 50 "S"
      ⟨[("S", ⟨"n", 0, 0, 0⟩)], [("S", ⟨"en", some 1, 2, ["a"]⟩)], []⟩).2.2
      ⟨"n", 0, 0, 0⟩ ⟨"en", some 1, 2, ["a"]⟩ (by decide) (by decide) (by decide)
      (by decide) rfl⟩

/-- C5 counterexample: the claim says the first ingest after a drain sets
`startedAt` to that ingest's time.  Concretely: ingest "a" at time 0 (buffer
created, `startedAt = 0`), drain successfully at time 5 (the drain resets
`startedAt` to 5), ingest "b" at time 10 — the first line since the drain.
The buffer's `startedAt` is 5 (the drain-completion time), not 10: the
handler's `if (!buf.startedAt)` guard never fires on an existing buffer
because `startedAt` always holds a non-empty timestamp. -/
theorem ingest_startedAt_counterexample :
    ((ingest 10 ⟨some "S", none, some "b"⟩
        (flushNow (fun _ _ => some [1]) 5 "S"
          (ingest 0 ⟨some "S", none, some "a"⟩
            ⟨[("S", ⟨"n", 0, 0, 0⟩)], [], []⟩).2).2).2.buffers.lookup "S") =
      some ⟨"en", some 5, 10, ["b"]⟩ := by decide

/-- C5 amended: an ingest that creates the session's buffer entry sets
`startedAt` to the ingest time; every ingest into an already-present buffer
leaves `startedAt` unchanged — in particular the first ingest after a drain
keeps the `startedAt` that the successful drain reset to the
drain-completion time, so the next persisted window starts at the previous
drain, not at the arrival of its first fragment. -/
theorem ingest_startedAt_policy (now : Nat) (sid : String) (lang : Option String)
    (text : String) (st : ServerState) (s : Session)
    (hsid : sid ≠ "") (htext : jsTrim text ≠ "")
    (hs : st.sessions.lookup sid = some s) :
    (st.buffers.lookup sid = none →
      ((ingest now ⟨some sid, lang, some text⟩ st).2.buffers.lookup sid).map
          SessionBuffer.startedAt = some (some now)) ∧
    (∀ buf t, st.buffers.lookup sid = some buf → buf.startedAt = some t →
      ((ingest now ⟨some sid, lang, some text⟩ st).2.buffers.lookup sid).map
          SessionBuffer.startedAt = some (some t)) := by
  constructor
  · intro hb
    rw [ingest_ok_of_new now sid lang text st hsid htext s hs hb]
    simp [lookup_mapSet_self]
  · intro buf t hb hstart
    rw [ingest_ok_of_existing now sid lang text st buf hsid htext s hs hb]
    simp [lookup_mapSet_self, hstart]

/-- Witness for the amended C5 at concrete states. -/
theorem ingest_startedAt_policy_witness :
    (((ingest 3 ⟨some "S", none, some "a"⟩
        ⟨[("S", ⟨"n", 0, 0, 0⟩)], [], []⟩).2.buffers.lookup "S").map
        SessionBuffer.startedAt = some (some 3)) ∧
    (((ingest 9 ⟨some "S", none, some "b"⟩
        ⟨[("S", ⟨"n", 0, 0, 0⟩)], [("S", ⟨"en", some 4, 4, []⟩)], []⟩).2.buffers.lookup
        "S").map SessionBuffer.startedAt = some (some 4)) :=
  ⟨(ingest_startedAt_policy 3 "S" none "a" ⟨[("S", ⟨"n", 0, 0, 0⟩)], [], []⟩
      ⟨"n", 0, 0, 0⟩ (by decide) (by decide) (by decide)).1 (by decide),
   (ingest_startedAt_policy 9 "S" none "b"
      ⟨[("S", ⟨"n", 0, 0, 0⟩)], [("S", ⟨"en", some 4, 4, []⟩)], []⟩
      ⟨"n", 0, 0, 0⟩ (by decide) (by decide) (by decide)).2
      ⟨"en", some 4, 4, []⟩ 4 (by decide) (by decide)⟩

/-- C6: ingest error contract.  Ingest answers the validation error exactly
when the text is missing or empty after trimming or the sessionId is missing
(absent or the empty string, both JS-falsy); it answers the not-found error
exactly when the input is well-formed but the session row does not exist;
and on every error the state is returned unchanged — no buffer is created or
mutated and nothing is persisted. -/
theorem ingest_error_contract (now : Nat) (req : IngestRequest) (st : ServerState) :
    ((ingest now req st).1 = .error .validation ↔
      (req.sessionId = none ∨ req.sessionId = some "" ∨ req.text = none ∨
        jsTrim (req.text.getD "") = "")) ∧
    ((ingest now req st).1 = .error .notFound ↔
      (¬(req.sessionId = none ∨ req.sessionId = some "" ∨ req.text = none ∨
          jsTrim (req.text.getD "") = "") ∧
        st.sessions.lookup (req.sessionId.getD "") = none)) ∧
    (∀ e, (ingest now req st).1 = .error e → (ingest now req st).2 = st) := by
  have hcond : (jsStrFalsy req.sessionId ∨ jsStrFalsy req.text ∨
      jsStrFalsy (req.text.map jsTrim)) ↔
      (req.sessionId = none ∨ req.sessionId = some "" ∨ req.text = none ∨
        jsTrim (req.text.getD "") = "") := by
    cases hsid : req.sessionId <;> cases htext : req.text <;>
      simp [jsStrFalsy, show jsTrim "" = "" by decide]
    exact ⟨fun h => h.elim Or.inl
        (fun h' => h'.elim
          (fun hb => Or.inr (by rw [hb]; decide)) Or.inr),
      fun h => h.elim Or.inl (fun h' => Or.inr (Or.inr h'))⟩
  by_cases hval : (jsStrFalsy req.sessionId ∨ jsStrFalsy req.text ∨
      jsStrFalsy (req.text.map jsTrim) : Prop)
  · refine ⟨by simp [ingest, hval, hcond.mp hval], by simp [ingest, hval, hcond.mp hval], ?_⟩
    intro e _
    simp [ingest, hval]
  · cases hlook : st.sessions.lookup (req.sessionId.getD "") with
    | none =>
      refine ⟨?_, ?_, ?_⟩
      · simp [ingest, hval, hlook, hcond.not.mp hval]
      · simp [ingest, hval, hlook, hcond.not.mp hval]
      · intro e _
        simp [ingest, hval, hlook]
    | some s =>
      refine ⟨?_, ?_, ?_⟩
      · simp [ingest, hval, hlook, hcond.not.mp hval]
      · simp [ingest, hval, hlook, hcond.not.mp hval]
      · intro e he
        exfalso
        simp [ingest, hval, hlook] at he

/-- Witness for C6: a request with whitespace-only text, one with a missing
sessionId, one referencing an absent session, and a well-formed one. -/
theorem ingest_error_contract_witness :
    ((ingest 1 ⟨some "S", none, some "  "⟩ ⟨[("S", ⟨"n", 0, 0, 0⟩)], [], []⟩).1 =
        .error .validation ↔
      (some "S" = none ∨ some "S" = some "" ∨ (some "  " : Option String) = none ∨
        jsTrim ((some "  " : Option String).getD "") = "")) ∧
    ((ingest 1 ⟨some "T", none, some "hi"⟩ ⟨[("S", ⟨"n", 0, 0, 0⟩)], [], []⟩).1 =
        .error .notFound ↔
      (¬(some "T" = none ∨ some "T" = some "" ∨ (some "hi" : Option String) = none ∨
          jsTrim ((some "hi" : Option String).getD "") = "") ∧
        List.lookup ((some "T" : Option String).getD "")
          ([("S", ⟨"n", 0, 0, 0⟩)] : List (String × Session)) = none)) ∧
    (∀ e, (ingest 1 ⟨none, none, some "hi"⟩ ⟨[("S", ⟨"n", 0, 0, 0⟩)], [], []⟩).1 =
        .error e →
      (ingest 1 ⟨none, none, some "hi"⟩ ⟨[("S", ⟨"n", 0, 0, 0⟩)], [], []⟩).2 =
        ⟨[("S", ⟨"n", 0, 0, 0⟩)], [], []⟩) :=
  ⟨(ingest_error_contract 1 ⟨some "S", none, some "  "⟩
      ⟨[("S", ⟨"n", 0, 0, 0⟩)], [], []⟩).1,
   (ingest_error_contract 1 ⟨some "T", none, some "hi"⟩
      ⟨[("S", ⟨"n", 0, 0, 0⟩)], [], []⟩).2.1,
   (ingest_error_contract 1 ⟨none, none, some "hi"⟩
      ⟨[("S", ⟨"n", 0, 0, 0⟩)], [], []⟩).2.2⟩

/-- C7: the hourly cleanup sweep removes a buffer-map entry exactly when its
`lastAt` is older than the one-hour staleness window and its line sequence is
empty; an entry with pending lines survives the sweep whatever its age. -/
theorem cleanupBuffers_policy (now : Nat) (st : ServerState) (sid : String)
    (buf : SessionBuffer) (hmem : (sid, buf) ∈ st.buffers) :
    ((sid, buf) ∈ (cleanupBuffers now st).buffers ↔
      ¬(buf.lastAt < now - 60 * 60 * 1000 ∧ buf.lines = [])) ∧
    (buf.lines ≠ [] → (sid, buf) ∈ (cleanupBuffers now st).buffers) := by
  have key : (sid, buf) ∈ (cleanupBuffers now st).buffers ↔
      ¬(buf.lastAt < now - 60 * 60 * 1000 ∧ buf.lines = []) := by
    simp only [cleanupBuffers, List.mem_filter]
    constructor
    · intro h
      exact of_decide_eq_true h.2
    · intro h
      exact ⟨hmem, decide_eq_true h⟩
  exact ⟨key, fun hlines => key.mpr (fun hcon => hlines hcon.2)⟩

/-- Witness for C7: a stale empty buffer is removed, a stale non-empty one
is kept. -/
theorem cleanupBuffers_policy_witness :
    (("S", (⟨"en", some 1, 2, []⟩ : SessionBuffer)) ∈
        (cleanupBuffers 7200000 ⟨[], [("S", ⟨"en", some 1, 2, []⟩)], []⟩).buffers ↔
      ¬((2 : Nat) < 7200000 - 60 * 60 * 1000 ∧ ([] : List String) = [])) ∧
    (("T", (⟨"en", some 1, 2, ["a"]⟩ : SessionBuffer)) ∈
      (cleanupBuffers 7200000 ⟨[], [("T", ⟨"en", some 1, 2, ["a"]⟩)], []⟩).buffers) :=
  ⟨(cleanupBuffers_policy 7200000 ⟨[], [("S", ⟨"en", some 1, 2, []⟩)], []⟩ "S"
      ⟨"en", some 1, 2, []⟩ (by decide)).1,
   (cleanupBuffers_policy 7200000 ⟨[], [("T", ⟨"en", some 1, 2, ["a"]⟩)], []⟩ "T"
      ⟨"en", some 1, 2, ["a"]⟩ (by decide)).2 (by decide)⟩

lemma intervalRetryLoop_congr (o₁ o₂ : Oracle) (resetAt : Nat) (sid : String)
    (content : String) (lines : List String) (buf : SessionBuffer)
    (maxRetries retryCount attempts : Nat) (waits : List Nat) (fuel : Nat)
    (h : ∀ n, o₁ content n = o₂ content n) :
    intervalRetryLoop o₁ resetAt sid content lines buf maxRetries retryCount
        attempts waits fuel =
      intervalRetryLoop o₂ resetAt sid content lines buf maxRetries retryCount
        attempts waits fuel := by
  induction fuel generalizing retryCount attempts waits with
  | zero => rfl
  | succ fuel ih =>
    rw [intervalRetryLoop, intervalRetryLoop, h retryCount]
    cases o₂ content retryCount with
    | some v => rfl
    | none =>
      by_cases hmax : maxRetries ≤ retryCount + 1 <;> simp [hmax, ih]

/-- C8: every drain joins the buffer's fragments in strict append order with
single-space separators and trims the result; that string — and nothing
else — is what the embedding call receives (the drain's outcome depends on
the oracle only through its answers on that string, and a persisted chunk
carries exactly that content and those lines).  An empty buffer, or a
joined-and-trimmed content that is empty, makes the drain a no-op that
persists nothing, makes no embedding attempt, and reports no error. -/
theorem drain_content_assembly (oracle : Oracle) (resetAt now : Nat) (sid : String)
    (buf : SessionBuffer) (st : ServerState) (v : List Int) :
    (buf.lines ≠ [] → SILENCE_THRESHOLD ≤ now - buf.lastAt →
     jsTrim (String.intercalate " " buf.lines) ≠ "" →
     oracle (jsTrim (String.intercalate " " buf.lines)) 0 = some v →
     (silenceFlushEntry oracle resetAt now sid buf).chunk =
       some ⟨sid, buf.startedAt, buf.lastAt, buf.language,
             jsTrim (String.intercalate " " buf.lines), buf.lines, v⟩) ∧
    (buf.lines ≠ [] → jsTrim (String.intercalate " " buf.lines) ≠ "" →
     oracle (jsTrim (String.intercalate " " buf.lines)) 0 = some v →
     (intervalFlushEntry oracle resetAt sid buf).chunk =
       some ⟨sid, buf.startedAt, buf.lastAt, buf.language,
             jsTrim (String.intercalate " " buf.lines), buf.lines, v⟩) ∧
    (∀ s, st.sessions.lookup sid = some s → st.buffers.lookup sid = some buf →
     buf.lines ≠ [] → jsTrim (String.intercalate " " buf.lines) ≠ "" →
     oracle (jsTrim (String.intercalate " " buf.lines)) 0 = some v →
     (flushNow oracle resetAt sid st).2.chunks = st.chunks ++
       [⟨sid, buf.startedAt, buf.lastAt, buf.language,
         jsTrim (String.intercalate " " buf.lines), buf.lines, v⟩]) ∧
    (∀ o₁ o₂ : Oracle,
     (∀ n, o₁ (jsTrim (String.intercalate " " buf.lines)) n =
        o₂ (jsTrim (String.intercalate " " buf.lines)) n) →
     silenceFlushEntry o₁ resetAt now sid buf =
         silenceFlushEntry o₂ resetAt now sid buf ∧
       intervalFlushEntry o₁ resetAt sid buf = intervalFlushEntry o₂ resetAt sid buf) ∧
    (buf.lines = [] →
     silenceFlushEntry oracle resetAt now sid buf = ⟨buf, none, 0, []⟩ ∧
       intervalFlushEntry oracle resetAt sid buf = ⟨buf, none, 0, []⟩) ∧
    (buf.lines ≠ [] → jsTrim (String.intercalate " " buf.lines) = "" →
     (silenceFlushEntry oracle resetAt now sid buf).chunk = none ∧
       (silenceFlushEntry oracle resetAt now sid buf).attempts = 0 ∧
       intervalFlushEntry oracle resetAt sid buf =
         ⟨{ buf with lines := [] }, none, 0, []⟩ ∧
       (∀ s, st.sessions.lookup sid = some s → st.buffers.lookup sid = some buf →
        (flushNow oracle resetAt sid st).1 = .emptyBuffer ∧
          (flushNow oracle resetAt sid st).2.chunks = st.chunks)) := by
  refine ⟨?_, ?_, ?_, ?_, ?_, ?_⟩
  · intro hne hth hc ho
    rw [silenceFlushEntry, if_neg hne, if_pos hth, if_neg hc, ho]
  · intro hne hc ho
    rw [intervalFlushEntry, if_neg hne, if_neg hc,
      show (3 : Nat) = 2 + 1 from rfl, intervalRetryLoop, ho]
  · intro s hs hb hne hc ho
    simp only [flushNow, hs, hb, if_neg hne, if_neg hc, ho]
  · intro o₁ o₂ h
    constructor
    · rw [silenceFlushEntry, silenceFlushEntry]
      by_cases hne : buf.lines = []
      · simp [hne]
      · by_cases hth : SILENCE_THRESHOLD ≤ now - buf.lastAt
        · by_cases hc : jsTrim (String.intercalate " " buf.lines) = "" <;>
            simp [hne, hth, hc, h 0]
        · simp [hne, hth]
    · rw [intervalFlushEntry, intervalFlushEntry]
      by_cases hne : buf.lines = []
      · simp [hne]
      · by_cases hc : jsTrim (String.intercalate " " buf.lines) = "" <;>
          simp [hne, hc, intervalRetryLoop_congr o₁ o₂ resetAt sid _ _ _ 3 0 0 [] 3 h]
  · intro hne
    exact ⟨by rw [silenceFlushEntry, if_pos hne],
      by rw [intervalFlushEntry, if_pos hne]⟩
  · intro hne hc
    refine ⟨?_, ?_, ?_, ?_⟩
    · rw [silenceFlushEntry, if_neg hne]
      by_cases hth : SILENCE_THRESHOLD ≤ now - buf.lastAt <;> simp [hth, hc]
    · rw [silenceFlushEntry, if_neg hne]
      by_cases hth : SILENCE_THRESHOLD ≤ now - buf.lastAt <;> simp [hth, hc]
    · rw [intervalFlushEntry, if_neg hne, if_pos hc]
    · intro s hs hb
      simp [flushNow, hs, hb, if_neg hne, hc]

/-- Witness for C8 at a concrete two-line buffer (the joined content keeps
append order: "first second"). -/
theorem drain_content_assembly_witness :
    ((silenceFlushEntry (fun _ _ => some [3]) 9 20000 "S"
        ⟨"en", some 1, 2, ["first", "second"]⟩).chunk =
      some ⟨"S", some 1, 2, "en", "first second", ["first", "second"], [3]⟩) ∧
    ((intervalFlushEntry (fun _ _ => some [3]) 9 "S"
        ⟨"en", some 1, 2, ["first", "second"]⟩).chunk =
      some ⟨"S", some 1, 2, "en", "first second", ["first", "second"], [3]⟩) ∧
    ((flushNow (fun _ _ => some [3]) 9 "S"
        ⟨[("S", ⟨"n", 0, 0, 0⟩)], [("S", ⟨"en", some 1, 2, ["first", "second"]⟩)],
          []⟩).2.chunks =
      [] ++ [⟨"S", some 1, 2, "en", "first second", ["first", "second"], [3]⟩]) ∧
    (silenceFlushEntry (fun _ _ => some [3]) 9 20000 "T" ⟨"en", some 1, 2, []⟩ =
      ⟨⟨"en", some 1, 2, []⟩, none, 0, []⟩) :=
  ⟨by
    have h := (drain_content_assembly (fun _ _ => some [3]) 9 20000 "S"
      ⟨"en", some 1, 2, ["first", "second"]⟩ ⟨[], [], []⟩ [3]).1
      (by decide) (by decide) (by decide) rfl
    rw [h]
    decide,
   by
    have h := (drain_content_assembly (fun _ _ => some [3]) 9 20000 "S"
      ⟨"en", some 1, 2, ["first", "second"]⟩ ⟨[], [], []⟩ [3]).2.1
      (by decide) (by decide) rfl
    rw [h]
    decide,
   by
    have h := (drain_content_assembly (fun _ _ => some [3]) 9 20000 "S"
      ⟨"en", some 1, 2, ["first", "second"]⟩
      ⟨[("S", ⟨"n", 0, 0, 0⟩)], [("S", ⟨"en", some 1, 2, ["first", "second"]⟩)], []⟩
      [3]).2.2.1 ⟨"n", 0, 0, 0⟩ (by decide) (by decide) (by decide) (by decide) rfl
    rw [h]
    decide,
   (drain_content_assembly (fun _ _ => some [3]) 9 20000 "T"
      ⟨"en", some 1, 2, []⟩ ⟨[], [], []⟩ [3]).2.2.2.2.1 (by decide) |>.1⟩

/-- C9 counterexample: the claim says an ingest that provides no language
leaves the buffer's language unchanged.  Concretely: ingest "hej" with
language "da" (buffer language becomes "da"), then ingest "hello" with no
language field — the handler's destructuring default turns the absent field
into "en" and `buf.language = language || buf.language` overwrites "da" with
"en". -/
theorem ingest_language_counterexample :
    ((ingest 1 ⟨some "S", none, some "hello"⟩
        (ingest 0 ⟨some "S", some "da", some "hej"⟩
          ⟨[("S", ⟨"n", 0, 0, 0⟩)], [], []⟩).2).2.buffers.lookup "S") =
      some ⟨"en", some 0, 1, ["hej", "hello"]⟩ := by decide

/-- C9 amended: an ingest with a provided non-empty language sets the
buffer's language to it; an ingest with no language field resets the
buffer's language to the default "en", overwriting any previously stored
value; only an ingest with a provided empty-string language (JS-falsy)
leaves the buffer's existing language unchanged. -/
theorem ingest_language_policy (now : Nat) (sid text : String) (st : ServerState)
    (buf : SessionBuffer) (s : Session) (hsid : sid ≠ "") (htext : jsTrim text ≠ "")
    (hs : st.sessions.lookup sid = some s) (hb : st.buffers.lookup sid = some buf) :
    (∀ l, l ≠ "" →
      ((ingest now ⟨some sid, some l, some text⟩ st).2.buffers.lookup sid).map
          SessionBuffer.language = some l) ∧
    (((ingest now ⟨some sid, none, some text⟩ st).2.buffers.lookup sid).map
        SessionBuffer.language = some "en") ∧
    (((ingest now ⟨some sid, some "", some text⟩ st).2.buffers.lookup sid).map
        SessionBuffer.language = some buf.language) := by
  refine ⟨?_, ?_, ?_⟩
  · intro l hl
    rw [ingest_ok_of_existing now sid (some l) text st buf hsid htext s hs hb]
    simp [lookup_mapSet_self, hl]
  · rw [ingest_ok_of_existing now sid none text st buf hsid htext s hs hb]
    simp [lookup_mapSet_self]
  · rw [ingest_ok_of_existing now sid (some "") text st buf hsid htext s hs hb]
    simp [lookup_mapSet_self]

/-- Witness for the amended C9 on a buffer whose language is "da". -/
theorem ingest_language_policy_witness :
    (((ingest 5 ⟨some "S", some "fr", some "x"⟩
        ⟨[("S", ⟨"n", 0, 0, 0⟩)], [("S", ⟨"da", some 1, 2, ["a"]⟩)], []⟩).2.buffers.lookup
        "S").map SessionBuffer.language = some "fr") ∧
    (((ingest 5 ⟨some "S", none, some "x"⟩
        ⟨[("S", ⟨"n", 0, 0, 0⟩)], [("S", ⟨"da", some 1, 2, ["a"]⟩)], []⟩).2.buffers.lookup
        "S").map SessionBuffer.language = some "en") ∧
    (((ingest 5 ⟨some "S", some "", some "x"⟩
        ⟨[("S", ⟨"n", 0, 0, 0⟩)], [("S", ⟨"da", some 1, 2, ["a"]⟩)], []⟩).2.buffers.lookup
        "S").map SessionBuffer.language =
      some (SessionBuffer.language ⟨"da", some 1, 2, ["a"]⟩)) :=
  ⟨(ingest_language_policy 5 "S" "x"
      ⟨[("S", ⟨"n", 0, 0, 0⟩)], [("S", ⟨"da", some 1, 2, ["a"]⟩)], []⟩
      ⟨"da", some 1, 2, ["a"]⟩ ⟨"n", 0, 0, 0⟩
      (by decide) (by decide) (by decide) (by decide)).1 "fr" (by decide),
   (ingest_language_policy 5 "S" "x"
      ⟨[("S", ⟨"n", 0, 0, 0⟩)], [("S", ⟨"da", some 1, 2, ["a"]⟩)], []⟩
      ⟨"da", some 1, 2, ["a"]⟩ ⟨"n", 0, 0, 0⟩
      (by decide) (by decide) (by decide) (by decide)).2.1,
   (ingest_language_policy 5 "S" "x"
      ⟨[("S", ⟨"n", 0, 0, 0⟩)], [("S", ⟨"da", some 1, 2, ["a"]⟩)], []⟩
      ⟨"da", some 1, 2, ["a"]⟩ ⟨"n", 0, 0, 0⟩
      (by decide) (by decide) (by decide) (by decide)).2.2⟩

/-- C10: frame property of a successful ingest.  It answers ok, persists no
chunk, changes no session row (so `total_transcripts` and `updated_at` stay
put), leaves every other session's buffer entry untouched, and mutates only
the named session's entry: one trimmed line is appended, `lastAt` becomes
the ingest time, and the entry is created if absent. -/
theorem ingest_frame (now : Nat) (sid : String) (lang : Option String)
    (text : String) (st : ServerState) (s : Session)
    (hsid : sid ≠ "") (htext : jsTrim text ≠ "")
    (hs : st.sessions.lookup sid = some s) :
    (ingest now ⟨some sid, lang, some text⟩ st).1 = .ok () ∧
    (ingest now ⟨some sid, lang, some text⟩ st).2.chunks = st.chunks ∧
    (ingest now ⟨some sid, lang, some text⟩ st).2.sessions = st.sessions ∧
    (∀ sid', sid' ≠ sid →
      (ingest now ⟨some sid, lang, some text⟩ st).2.buffers.lookup sid' =
        st.buffers.lookup sid') ∧
    (∃ buf', (ingest now ⟨some sid, lang, some text⟩ st).2.buffers.lookup sid =
        some buf' ∧
      buf'.lines = ((st.buffers.lookup sid).map SessionBuffer.lines).getD []
        ++ [jsTrim text] ∧
      buf'.lastAt = now) := by
  cases hb : st.buffers.lookup sid with
  | none =>
    rw [ingest_ok_of_new now sid lang text st hsid htext s hs hb]
    refine ⟨rfl, rfl, rfl, ?_, ?_⟩
    · intro sid' hne
      exact lookup_mapSet_ne hne _ st.buffers
    · exact ⟨_, lookup_mapSet_self sid _ st.buffers, by simp [hb], rfl⟩
  | some buf =>
    rw [ingest_ok_of_existing now sid lang text st buf hsid htext s hs hb]
    refine ⟨rfl, rfl, rfl, ?_, ?_⟩
    · intro sid' hne
      exact lookup_mapSet_ne hne _ st.buffers
    · exact ⟨_, lookup_mapSet_self sid _ st.buffers, by simp [hb], rfl⟩

/-- Witness for C10: an ingest into session "S" leaves session "T"'s buffer,
the chunk list and the sessions table unchanged. -/
theorem ingest_frame_witness :
    ((ingest 5 ⟨some "S", none, some "x"⟩
        ⟨[("S", ⟨"n", 0, 0, 0⟩)], [("T", ⟨"en", some 1, 2, ["b"]⟩)], []⟩).1 = .ok ()) ∧
    ((ingest 5 ⟨some "S", none, some "x"⟩
        ⟨[("S", ⟨"n", 0, 0, 0⟩)], [("T", ⟨"en", some 1, 2, ["b"]⟩)], []⟩).2.chunks = []) ∧
    ((ingest 5 ⟨some "S", none, some "x"⟩
        ⟨[("S", ⟨"n", 0, 0, 0⟩)], [("T", ⟨"en", some 1, 2, ["b"]⟩)], []⟩).2.sessions =
      [("S", ⟨"n", 0, 0, 0⟩)]) ∧
    ((ingest 5 ⟨some "S", none, some "x"⟩
        ⟨[("S", ⟨"n", 0, 0, 0⟩)], [("T", ⟨"en", some 1, 2, ["b"]⟩)], []⟩).2.buffers.lookup
        "T" =
      List.lookup "T" [("T", ⟨"en", some 1, 2, ["b"]⟩)]) :=
  have h := ingest_frame 5 "S" none "x"
    ⟨[("S", ⟨"n", 0, 0, 0⟩)], [("T", ⟨"en", some 1, 2, ["b"]⟩)], []⟩
    ⟨"n", 0, 0, 0⟩ (by decide) (by decide) (by decide)
  ⟨h.1, h.2.1, h.2.2.1, h.2.2.2.1 "T" (by decide)⟩

end Sidekick
